import Mathlib

/-!
# Verification of the statement-execution and pessimistic-retry engine

A shallow embedding of `src/executor/adapter.go` (package `executor` of a
distributed SQL engine).  The pure control flow of the adapter is translated
directly into executable Lean functions; the external collaborators that the
file only calls through an interface (the transaction manager, the lock/
transaction client, the operator tree, the planner) are modelled as explicit
inputs: every call the adapter makes to a collaborator reads the next scripted
answer from an environment record, so a theorem quantifying over environments
quantifies over all collaborator behaviours.

Durations (`time.Duration` values, only ever accumulated by `+=` of elapsed
times) are modelled as natural numbers.  Keys (`kv.Key`) and rows
(`chunk.Row`) are abstract values modelled as naturals.
-/

/-- Rows produced by an executor (`chunk.Row`) are abstract values. -/
abbrev Row := Nat

/-- A Go string abstracted to the only property the adapter inspects on a
recovered panic string: whether `strings.Contains` finds the
`memory.PanicMemoryExceed` signal in it.  `sid` keeps distinct strings
distinct. -/
structure GoString where
  containsPanicMemoryExceed : Bool
  sid : Nat
  deriving DecidableEq

/-- A value recovered from a Go `panic`.  The deferred handler in `Exec`
distinguishes string panics (`r.(string)`) from all other panic values. -/
inductive PanicValue where
  | ofString (s : GoString)
  | nonString (i : Nat)
  deriving DecidableEq

/-- The error values that the code of `adapter.go` distinguishes.

* `deadlockSignal` — an error whose `errors.Cause` is `*tikverr.ErrDeadlock`,
  the lock client's deadlock signal;
* `errDeadlock` — the distinguished executor-level `ErrDeadlock` kind that the
  deferred translation in `handlePessimisticLockError` substitutes for it;
* `writeConflict i` — a retryable lock-conflict error (write conflict or
  duplicate key surfaced while locking), with an identity tag;
* `retryLimitReached` — `errors.New("pessimistic lock retry limit reached")`;
* `snapshotWrite` — `errors.New("can not execute write statement when
  'tidb_snapshot' is set")`;
* `lowResolutionWrite` — `errors.New("can not execute write statement when
  'tidb_low_resolution_tso' is set")`;
* `recovered v` — `errors.Errorf("%v", r)` built from a recovered panic value;
* `other i` — any other error (build errors, storage errors, ...). -/
inductive GoError where
  | deadlockSignal
  | errDeadlock
  | writeConflict (i : Nat)
  | retryLimitReached
  | snapshotWrite
  | lowResolutionWrite
  | recovered (v : PanicValue)
  | other (i : Nat)
  deriving DecidableEq

/-- Whether `errors.Cause(err)` is `*tikverr.ErrDeadlock`, the test made by
the deferred handler of `handlePessimisticLockError`. -/
def GoError.isDeadlockCause : GoError → Bool
  | .deadlockSignal => true
  | _ => false

/-- The transaction manager's verdict `OnStmtErrorForNextAction` returns
(`sessiontxn.StmtActionError / StmtActionNoIdea / StmtActionRetryReady`). -/
inductive StmtAction where
  | error
  | noIdea
  | retryReady
  deriving DecidableEq

/-- The mutable per-statement state of `ExecStmt` that the retry engine reads
and writes: the retry counter and the four two-slot phase-duration
accumulators.  Slot `.1` is the current attempt, slot `.2` the accumulated
prior attempts (Go indices `[0]` and `[1]`). -/
structure ExecStmt where
  retryCount : Nat
  phaseBuildDurations : Nat × Nat
  phaseOpenDurations : Nat × Nat
  phaseNextDurations : Nat × Nat
  phaseLockDurations : Nat × Nat
  deriving DecidableEq

/-- `(*ExecStmt).resetPhaseDurations`: fold each current-attempt slot into the
prior-attempts slot and zero the current slot. -/
def ExecStmt.resetPhaseDurations (a : ExecStmt) : ExecStmt :=
  { a with
    phaseBuildDurations := (0, a.phaseBuildDurations.2 + a.phaseBuildDurations.1)
    phaseOpenDurations := (0, a.phaseOpenDurations.2 + a.phaseOpenDurations.1)
    phaseNextDurations := (0, a.phaseNextDurations.2 + a.phaseNextDurations.1)
    phaseLockDurations := (0, a.phaseLockDurations.2 + a.phaseLockDurations.1) }

/-- Scripted collaborator behaviour for one execution of
`handlePessimisticLockError`, covering every external call that function
makes.  `ε` is the type standing for the built executor. -/
structure RetryEnv (ε : Type) where
  /-- `txnManager.OnStmtErrorForNextAction(StmtErrAfterPessimisticLock, lockErr)`. -/
  onStmtErrorForNextAction : GoError → Except GoError StmtAction
  /-- `config.GetGlobalConfig().PessimisticTxn.MaxRetryCount`. -/
  maxRetryCount : Nat
  /-- result of `txnManager.OnStmtRetry(ctx)` (`none` = success). -/
  onStmtRetry : Option GoError
  /-- result of `txnManager.GetStmtForUpdateTS()` (`none` = success). -/
  getStmtForUpdateTS : Option GoError
  /-- duration the rebuild adds to `phaseBuildDurations[0]` (added by the
  `defer` in `buildExecutor` whether or not the build fails). -/
  buildDur : Nat
  /-- result of `a.buildExecutor()`. -/
  buildExecutor : Except GoError ε
  /-- duration the reopen adds to `phaseOpenDurations[0]`. -/
  openDur : Nat
  /-- result of `a.openExecutor(ctx, e)` (`none` = success). -/
  openExecutor : Option GoError

/-- The `(Executor, error)` pair returned by `handlePessimisticLockError`:
`noop` is Go's `(nil, nil)` (no lock error to recover from), `retry e` is a
fresh executor to retry with, `fail err` surfaces a terminal error. -/
inductive LockErrResult (ε : Type) where
  | noop
  | retry (e : ε)
  | fail (err : GoError)

/-- The deferred handler of `handlePessimisticLockError`: an error whose
cause is the lock client's deadlock signal is replaced by `ErrDeadlock`. -/
def deadlockTranslate {ε : Type} (r : LockErrResult ε) : LockErrResult ε :=
  match r with
  | .fail e => if e.isDeadlockCause then .fail .errDeadlock else .fail e
  | r => r

/-- Body of `handlePessimisticLockError` for a non-nil `lockErr`, before the
deferred deadlock translation is applied: ask the transaction manager for the
next action; surface the original error on a non-retry verdict; enforce the
retry budget; bump the retry counter; notify the manager of the retry and
fetch a fresh for-update timestamp; fold the phase durations; rebuild, roll
back statement-local state, and reopen the executor. -/
def handlePessimisticLockErrorCore {ε : Type} (env : RetryEnv ε) (a : ExecStmt)
    (lockErr : GoError) : ExecStmt × LockErrResult ε :=
  match env.onStmtErrorForNextAction lockErr with
  | .error e => (a, .fail e)
  | .ok action =>
    if action ≠ StmtAction.retryReady then (a, .fail lockErr)
    else if env.maxRetryCount ≤ a.retryCount then (a, .fail .retryLimitReached)
    else
      let a1 : ExecStmt := { a with retryCount := a.retryCount + 1 }
      match env.onStmtRetry with
      | some e => (a1, .fail e)
      | none =>
        match env.getStmtForUpdateTS with
        | some e => (a1, .fail e)
        | none =>
          let a2 := a1.resetPhaseDurations
          let a3 : ExecStmt := { a2 with
            phaseBuildDurations :=
              (a2.phaseBuildDurations.1 + env.buildDur, a2.phaseBuildDurations.2) }
          match env.buildExecutor with
          | .error e => (a3, .fail e)
          | .ok e =>
            let a4 : ExecStmt := { a3 with
              phaseOpenDurations :=
                (a3.phaseOpenDurations.1 + env.openDur, a3.phaseOpenDurations.2) }
            match env.openExecutor with
            | some err => (a4, .fail err)
            | none => (a4, .retry e)

/-- `(*ExecStmt).handlePessimisticLockError`: returns `(nil, nil)` when there
is no error, otherwise runs the recovery body; the deferred handler rewrites
any returned error whose cause is the lock client's deadlock signal into the
distinguished `ErrDeadlock` kind. -/
def handlePessimisticLockError {ε : Type} (env : RetryEnv ε) (a : ExecStmt)
    (lockErr : Option GoError) : ExecStmt × LockErrResult ε :=
  match lockErr with
  | none => (a, .noop)
  | some e =>
    let r := handlePessimisticLockErrorCore env a e
    (r.1, deadlockTranslate r.2)

/-- The concrete executor kinds `adapter.go` type-switches on:
`explainAnalyze n` is an `ExplainExec` whose `getAnalyzeExecToExecutedNoDelay`
is non-nil with inner analyze schema length `n`; `projCalculateNoDelay` is a
`ProjectionExec` with `calculateNoDelay` set; `writeExecutor` is one of
`DeleteExec / InsertExec / UpdateExec / ReplaceExec / LoadDataExec / DDLExec`;
`plain` is any other executor. -/
inductive ExecutorKind where
  | explainAnalyze (analyzeSchemaLen : Nat)
  | projCalculateNoDelay
  | writeExecutor
  | plain
  deriving DecidableEq

/-- Scripted behaviour for one call of `handleNoDelayExecutor`: the kind of
the executor it is driving, the session's snapshot / low-resolution
timestamp state, and the outcome of the single `a.next` drive call. -/
structure NoDelayEnv where
  kind : ExecutorKind
  /-- `sctx.GetSessionVars().SnapshotTS` (`0` = unset). -/
  snapshotTS : Nat
  /-- `sctx.GetSessionVars().LowResolutionTSO`. -/
  lowResolutionTSO : Bool
  /-- duration the drive adds to `phaseNextDurations[0]`. -/
  nextDur : Nat
  /-- result of `a.next(ctx, e, newFirstChunk(e))` (`none` = success). -/
  nextErr : Option GoError

/-- A client-visible record set value: either a live `recordSet` wrapping the
root executor, or a `chunkRowRecordSet` replaying pre-buffered rows. -/
inductive RecordSetVal where
  | recordSet (txnStartTS : Nat)
  | chunkRows (rows : List Row)
  deriving DecidableEq

/-- `(*ExecStmt).handleNoDelayExecutor`: reject writes under a historical
snapshot or a low-resolution timestamp before driving; otherwise drive the
executor once (recording the elapsed time) and discard the batch.  Both Go
return statements are literally `return nil, err`, so the record-set component
is `none` in every branch.  The final boolean is ghost instrumentation
recording whether the executor was actually driven (`a.next` called). -/
def handleNoDelayExecutor (env : NoDelayEnv) (a : ExecStmt) :
    ExecStmt × Option RecordSetVal × Option GoError × Bool :=
  if env.kind = ExecutorKind.writeExecutor ∧ env.snapshotTS ≠ 0 then
    (a, none, some .snapshotWrite, false)
  else if env.kind = ExecutorKind.writeExecutor ∧ env.lowResolutionTSO = true then
    (a, none, some .lowResolutionWrite, false)
  else
    ({ a with phaseNextDurations :=
        (a.phaseNextDurations.1 + env.nextDur, a.phaseNextDurations.2) },
     none, env.nextErr, true)

/-- Scripted collaborator behaviour for one iteration of the
`handlePessimisticDML` retry loop.  `ε` is the executor type handed back by a
successful recovery (the scripted drive outcomes make its value irrelevant
inside the loop, matching the fact that the loop only threads it through). -/
structure DMLIter (ε : Type) where
  /-- behaviour of the `a.handleNoDelayExecutor(ctx, e)` drive. -/
  drive : NoDelayEnv
  /-- `txn.Valid()` right after the drive. -/
  txnValid : Bool
  /-- `txn.(pessimisticTxn).KeysNeedToLock()`. -/
  keysNeedToLock : Except GoError (List Nat)
  /-- `txnCtx.CollectUnchangedLockKeys(keys)`. -/
  collectUnchangedLockKeys : List Nat → List Nat
  /-- `filterTemporaryTableKeys(sctx.GetSessionVars(), keys)`. -/
  filterTemporaryTableKeys : List Nat → List Nat
  /-- `filterLockTableKeys(seVars.StmtCtx, keys)`. -/
  filterLockTableKeys : List Nat → List Nat
  /-- result of `newLockCtx(sctx, seVars.LockWaitTimeout, len(keys))`. -/
  newLockCtxErr : Option GoError
  /-- duration the lock call adds to `phaseLockDurations[0]`. -/
  lockDur : Nat
  /-- result of `txn.LockKeys(ctx, lockCtx, keys...)` (`none` = success). -/
  lockKeysErr : Option GoError
  /-- collaborators of the `handlePessimisticLockError` recovery step entered
  from this iteration (at most one recovery runs per iteration). -/
  recovery : RetryEnv ε

/-- Observable outcome of a `handlePessimisticDML` run.  `result = none`
means the iteration script was exhausted while the loop wanted to continue
(the loop itself has no built-in bound); `result = some none` is Go's
`return nil`, `result = some (some e)` is `return e`.  `lockCalls` records
every key set passed to `txn.LockKeys` and `keyFetches` counts the calls to
`KeysNeedToLock` — ghost instrumentation for "the lock client was (not)
invoked".  `attempts` counts loop iterations entered. -/
structure DMLTrace where
  stmt : ExecStmt
  result : Option (Option GoError)
  lockCalls : List (List Nat)
  keyFetches : Nat
  attempts : Nat
  deriving DecidableEq

/-- `(*ExecStmt).handlePessimisticDML`, the pessimistic DML retry loop: drive
the executor to completion; return immediately if the transaction is no
longer valid; on a drive error run the shared recovery step and either
surface its terminal error or retry; on success compute the keys to lock,
short-circuit when the set is empty after `CollectUnchangedLockKeys`, filter
temporary-table and lock-table keys, lock the rest, and on a lock error run
the same recovery step. -/
def handlePessimisticDML {ε : Type} : ExecStmt → List (DMLIter ε) → DMLTrace
  | a, [] => { stmt := a, result := none, lockCalls := [], keyFetches := 0, attempts := 0 }
  | a, it :: rest =>
    let d := handleNoDelayExecutor it.drive a
    let a1 := d.1
    let driveErr := d.2.2.1
    if it.txnValid = false then
      { stmt := a1, result := some driveErr, lockCalls := [], keyFetches := 0, attempts := 1 }
    else
      match driveErr with
      | some e =>
        match handlePessimisticLockError it.recovery a1 (some e) with
        | (a2, .fail err) =>
          { stmt := a2
            result := some (some err)
            lockCalls := []
            keyFetches := 0
            attempts := 1 }
        | (a2, _) =>
          let t := handlePessimisticDML a2 rest
          { t with attempts := t.attempts + 1 }
      | none =>
        match it.keysNeedToLock with
        | .error e1 =>
          { stmt := a1
            result := some (some e1)
            lockCalls := []
            keyFetches := 1
            attempts := 1 }
        | .ok keys0 =>
          let keys1 := it.collectUnchangedLockKeys keys0
          if keys1.length = 0 then
            { stmt := a1, result := some none, lockCalls := [], keyFetches := 1, attempts := 1 }
          else
            let keys2 := it.filterLockTableKeys (it.filterTemporaryTableKeys keys1)
            match it.newLockCtxErr with
            | some e =>
              { stmt := a1
                result := some (some e)
                lockCalls := []
                keyFetches := 1
                attempts := 1 }
            | none =>
              let a2 : ExecStmt := { a1 with phaseLockDurations :=
                (a1.phaseLockDurations.1 + it.lockDur, a1.phaseLockDurations.2) }
              match it.lockKeysErr with
              | none =>
                { stmt := a2
                  result := some none
                  lockCalls := [keys2]
                  keyFetches := 1
                  attempts := 1 }
              | some lerr =>
                match handlePessimisticLockError it.recovery a2 (some lerr) with
                | (a3, .fail err) =>
                  { stmt := a3
                    result := some (some err)
                    lockCalls := [keys2]
                    keyFetches := 1
                    attempts := 1 }
                | (a3, _) =>
                  let t := handlePessimisticDML a3 rest
                  { t with
                    lockCalls := keys2 :: t.lockCalls
                    keyFetches := t.keyFetches + 1
                    attempts := t.attempts + 1 }

/-- A select-for-update executor is modelled by the script of answers its
successive `a.next(ctx, e, req)` calls give: each entry carries the elapsed
duration recorded into `phaseNextDurations[0]` and either an error or the
rows the chunk was filled with (an empty chunk signals completion). -/
abbrev SFUExec := List (Nat × Except GoError (List Row))

/-- `(*ExecStmt).runPessimisticSelectForUpdate`: repeatedly drive the
executor, buffering all produced rows, until an error (returned for the
caller's recovery step) or an empty chunk (then the buffered rows become a
`chunkRowRecordSet`).  `acc` is the `rows` accumulator; the result is `none`
when the script is exhausted while the Go loop would keep calling `next`. -/
def runPessimisticSelectForUpdate (a : ExecStmt) (acc : List Row) :
    SFUExec → Option (ExecStmt × Except GoError (List Row))
  | [] => none
  | (d, r) :: rest =>
    let a1 : ExecStmt := { a with phaseNextDurations :=
      (a.phaseNextDurations.1 + d, a.phaseNextDurations.2) }
    match r with
    | .error e => some (a1, .error e)
    | .ok rs =>
      if rs = [] then some (a1, .ok acc)
      else runPessimisticSelectForUpdate a1 (acc ++ rs) rest

/-- The retry loop of `(*ExecStmt).handlePessimisticSelectForUpdate`: run the
buffering drive; on success `handlePessimisticLockError` is a no-op (`nil`
lock error returns `(nil, nil)`) and the buffered rows are returned; on an
error the recovery step either surfaces a terminal error, or hands back a
fresh executor to retry with.  `envs` scripts the successive recovery steps;
`none` means a script ran out.  The `.ok none` outcome mirrors the
(unreachable in Go) branch where recovery returns `(nil, nil)` for a non-nil
error and the loop returns the nil record set of the failed attempt. -/
def handlePessimisticSelectForUpdateLoop :
    ExecStmt → SFUExec → List (RetryEnv SFUExec) →
    Option (ExecStmt × Except GoError (Option (List Row)))
  | a, e, envs =>
    match runPessimisticSelectForUpdate a [] e with
    | none => none
    | some (a1, .ok rows) => some (a1, .ok (some rows))
    | some (a1, .error err) =>
      match envs with
      | [] => none
      | env :: rest =>
        match handlePessimisticLockError env a1 (some err) with
        | (a2, .fail e2) => some (a2, .error e2)
        | (a2, .noop) => some (a2, .ok none)
        | (a2, .retry e2) => handlePessimisticSelectForUpdateLoop a2 e2 rest

/-- `(*ExecStmt).handlePessimisticSelectForUpdate`: a session pinned to a
historical snapshot timestamp must not enter the select-for-update path at
all — the executor is closed and the write-under-snapshot error returned
before anything is driven; otherwise run the retry loop. -/
def handlePessimisticSelectForUpdate (snapshotTS : Nat) (a : ExecStmt)
    (e : SFUExec) (envs : List (RetryEnv SFUExec)) :
    Option (ExecStmt × Except GoError (Option (List Row))) :=
  if snapshotTS ≠ 0 then some (a, .error .snapshotWrite)
  else handlePessimisticSelectForUpdateLoop a e envs

/-- The `chunkRowRecordSet` state: the buffered rows and the replay cursor. -/
structure chunkRowRecordSet where
  rows : List Row
  idx : Nat
  deriving DecidableEq

/-- `(*chunkRowRecordSet).Next`: reset the chunk, and while it is not full
and rows remain, append `min(len(rows)-idx, RequiredRows-NumRows)` rows and
advance the cursor.  `requiredRows` is the chunk capacity; after the reset
`NumRows` is `0`, so the chunk is full exactly when the capacity is `0`.
Returns the new state and the rows delivered into the chunk. -/
def chunkRowRecordSetNext (c : chunkRowRecordSet) (requiredRows : Nat) :
    chunkRowRecordSet × List Row :=
  if 0 < requiredRows ∧ c.idx < c.rows.length then
    let n := min (c.rows.length - c.idx) requiredRows
    ({ c with idx := c.idx + n }, (c.rows.drop c.idx).take n)
  else (c, [])

/-- Repeatedly call `chunkRowRecordSetNext` (as the client layer does) until
an empty batch is returned, concatenating the delivered batches.  `fuel`
bounds the number of calls. -/
def drainChunkRows (c : chunkRowRecordSet) (requiredRows : Nat) : Nat → List Row
  | 0 => []
  | fuel + 1 =>
    let s := chunkRowRecordSetNext c requiredRows
    if s.2 = [] then []
    else s.2 ++ drainChunkRows s.1 requiredRows fuel

/-- Scripted collaborator behaviour for one call of `(*ExecStmt).Exec`:
outcomes of `buildExecutor` and `openExecutor`, the session flags `Exec`
reads, the executor's kind and schema, and the scripts of the three possible
drive paths (select-for-update, pessimistic DML, plain no-delay). -/
structure ExecEnv (ε : Type) where
  /-- duration `buildExecutor` adds to `phaseBuildDurations[0]`. -/
  buildDur : Nat
  /-- result of `a.buildExecutor()` (`none` = success). -/
  buildErr : Option GoError
  /-- `a.isSelectForUpdate`, computed inside `buildExecutor` as
  `b.hasLock && !(in delete/update/insert stmt)`. -/
  isSelectForUpdate : Bool
  /-- duration `openExecutor` adds to `phaseOpenDurations[0]`. -/
  openDur : Nat
  /-- result of `a.openExecutor(ctx, e)` (`none` = success). -/
  openErr : Option GoError
  /-- `sctx.GetSessionVars().TxnCtx.IsPessimistic`. -/
  isPessimistic : Bool
  /-- concrete kind of the built executor `e`. -/
  kind : ExecutorKind
  /-- `e.Schema().Len()`. -/
  schemaLen : Nat
  /-- `sctx.GetSessionVars().SnapshotTS`. -/
  snapshotTS : Nat
  /-- behaviour of the select-for-update drive of `e`. -/
  sfuExec : SFUExec
  /-- recovery scripts for the select-for-update loop. -/
  sfuRecoveries : List (RetryEnv SFUExec)
  /-- behaviour of the `handleNoDelayExecutor` drive of `toCheck`. -/
  noDelayDrive : NoDelayEnv
  /-- iteration scripts for the pessimistic DML loop. -/
  dmlScript : List (DMLIter ε)
  /-- result of `sctx.Txn(false)` (`none` = success). -/
  txnErr : Option GoError
  /-- `txn.Valid()` for the returned record set's start timestamp. -/
  txnValid : Bool
  /-- `txn.StartTS()`. -/
  txnStartTS : Nat

/-- `(*ExecStmt).handleNoDelay`: compute `toCheck` (the inner analyze
executor when `e` is an `ExplainExec` with an analyze target, otherwise `e`
itself); a statement is handled without delay when `toCheck`'s schema is
empty (except that an explain-analyze keeps `handled = false` so the explain
rows are still returned), routing to the pessimistic DML loop or the plain
no-delay drive; a `ProjectionExec` with `calculateNoDelay` is also driven
here.  Returns `none` when a drive script was exhausted, otherwise
`(handled, state, recordSet, error)` — the record-set component of both
drive paths is Go's literal `nil`. -/
def handleNoDelay {ε : Type} (env : ExecEnv ε) (a : ExecStmt) :
    Option (Bool × ExecStmt × Option RecordSetVal × Option GoError) :=
  let toCheckSchemaLen :=
    match env.kind with
    | .explainAnalyze n => n
    | _ => env.schemaLen
  let isExplainAnalyze : Bool :=
    match env.kind with
    | .explainAnalyze _ => true
    | _ => false
  if toCheckSchemaLen = 0 then
    let handled := !isExplainAnalyze
    if env.isPessimistic = true then
      let t := handlePessimisticDML a env.dmlScript
      match t.result with
      | none => none
      | some r => some (handled, t.stmt, none, r)
    else
      let r := handleNoDelayExecutor env.noDelayDrive a
      some (handled, r.1, r.2.1, r.2.2.1)
  else if env.kind = ExecutorKind.projCalculateNoDelay then
    let r := handleNoDelayExecutor env.noDelayDrive a
    some (true, r.1, r.2.1, r.2.2.1)
  else
    some (false, a, none, none)

/-- `(*ExecStmt).Exec` (after its panic-recovery boundary, modelled
separately by `execRecover`): build the executor, open it (closing it on an
open failure), take the pessimistic select-for-update path when the
statement is a select-for-update inside a pessimistic transaction, otherwise
classify via `handleNoDelay` and return its result when the statement was
handled or errored; all remaining statements get a live `recordSet` whose
start timestamp is the valid transaction's.  `none` means a drive script was
exhausted. -/
def Exec {ε : Type} (env : ExecEnv ε) (a : ExecStmt) :
    Option (ExecStmt × Option RecordSetVal × Option GoError) :=
  let a0 : ExecStmt := { a with phaseBuildDurations :=
    (a.phaseBuildDurations.1 + env.buildDur, a.phaseBuildDurations.2) }
  match env.buildErr with
  | some e => some (a0, none, some e)
  | none =>
    let a1 : ExecStmt := { a0 with phaseOpenDurations :=
      (a0.phaseOpenDurations.1 + env.openDur, a0.phaseOpenDurations.2) }
    match env.openErr with
    | some e => some (a1, none, some e)
    | none =>
      if env.isPessimistic = true ∧ env.isSelectForUpdate = true then
        match handlePessimisticSelectForUpdate env.snapshotTS a1 env.sfuExec
            env.sfuRecoveries with
        | none => none
        | some (a2, .error e) => some (a2, none, some e)
        | some (a2, .ok none) => some (a2, none, none)
        | some (a2, .ok (some rows)) => some (a2, some (.chunkRows rows), none)
      else
        match handleNoDelay env a1 with
        | none => none
        | some (handled, a2, rs, err) =>
          if handled = true ∨ err ≠ none then some (a2, rs, err)
          else
            match env.txnErr with
            | some e => some (a2, none, some e)
            | none =>
              let ts := if env.txnValid = true then env.txnStartTS else 0
              some (a2, some (.recordSet ts), none)

/-- The outcome of a Go function body that may also terminate by panicking. -/
inductive DriveOutcome (α : Type) where
  | ok (a : α)
  | err (e : GoError)
  | panicked (v : PanicValue)
  deriving DecidableEq

/-- Whether a panic value is a string panic carrying the
`memory.PanicMemoryExceed` signal. -/
def PanicValue.isMemExceedString : PanicValue → Bool
  | .ofString s => s.containsPanicMemoryExceed
  | .nonString _ => false

/-- The deferred recovery boundary of `(*ExecStmt).Exec`: recover the panic;
if the recovered value is not a string, or is a string that does not contain
`memory.PanicMemoryExceed`, re-panic it; otherwise turn it into a regular
error (`errors.Errorf`). -/
def execRecover {α : Type} (o : DriveOutcome α) : DriveOutcome α :=
  match o with
  | .panicked (.ofString s) =>
    if s.containsPanicMemoryExceed = true then .err (.recovered (.ofString s))
    else .panicked (.ofString s)
  | .panicked v => .panicked v
  | o => o

/-- The deferred recovery boundary of `(*recordSet).Next`: every recovered
panic value is turned into a regular error (`errors.Errorf`). -/
def recordSetNextRecover {α : Type} (o : DriveOutcome α) : DriveOutcome α :=
  match o with
  | .panicked v => .err (.recovered v)
  | o => o

/-- Ghost counters for the finalize-and-record side effects of the owning
statement: invocations of `FinishExecuteStmt` (telemetry, slow log, summary),
of the `logAudit` hook, and of the memory/disk tracker detachment. -/
structure FinalizeState where
  finishExecuteStmtCount : Nat
  logAuditCount : Nat
  detachCount : Nat
  deriving DecidableEq

/-- `(*ExecStmt).CloseRecordSet`: unconditionally run `FinishExecuteStmt`,
the audit hook, and the tracker detachment. -/
def CloseRecordSet (s : FinalizeState) : FinalizeState :=
  { finishExecuteStmtCount := s.finishExecuteStmtCount + 1
    logAuditCount := s.logAuditCount + 1
    detachCount := s.detachCount + 1 }

/-- `(*recordSet).Close`: close the wrapped executor, then unconditionally
call the owning statement's `CloseRecordSet`, returning the executor-close
error.  `execCloseErr` scripts `a.executor.Close()`. -/
def recordSetClose (execCloseErr : Option GoError) (s : FinalizeState) :
    FinalizeState × Option GoError :=
  (CloseRecordSet s, execCloseErr)

/-- The statement state at the moment `Exec` enters a retry loop: no retries
yet, the initial build and open durations recorded in the current-attempt
slots, nothing driven or locked yet. -/
def initStmt (b0 o0 : Nat) : ExecStmt :=
  { retryCount := 0
    phaseBuildDurations := (b0, 0)
    phaseOpenDurations := (o0, 0)
    phaseNextDurations := (0, 0)
    phaseLockDurations := (0, 0) }

/-- A drive environment for a non-write executor that succeeds after `n`
time units of iteration. -/
def plainDrive (n : Nat) : NoDelayEnv :=
  { kind := .plain, snapshotTS := 0, lowResolutionTSO := false, nextDur := n, nextErr := none }

/-- A recovery environment whose transaction manager always answers
retry-ready and whose rebuild/reopen succeed, taking `b` and `o` time
units. -/
def retryReadyEnv (maxR b o : Nat) : RetryEnv Unit :=
  { onStmtErrorForNextAction := fun _ => .ok .retryReady
    maxRetryCount := maxR
    onStmtRetry := none
    getStmtForUpdateTS := none
    buildDur := b
    buildExecutor := .ok ()
    openDur := o
    openExecutor := none }

/-- Durations of one failed pessimistic-DML attempt: the attempt drives for
`nextDur`, its lock call waits `lockDur` and fails with a write conflict,
and the recovery step rebuilds and reopens the executor for the next attempt
in `rebuildDur` and `reopenDur`. -/
structure FailSpec where
  nextDur : Nat
  lockDur : Nat
  rebuildDur : Nat
  reopenDur : Nat
  deriving DecidableEq

/-- A DML-loop iteration that drives successfully, needs one key locked,
fails the lock call with a retryable write conflict, and recovers
successfully (transaction manager answers retry-ready). -/
def conflictIter (f : FailSpec) (maxR : Nat) : DMLIter Unit :=
  { drive := plainDrive f.nextDur
    txnValid := true
    keysNeedToLock := .ok [0]
    collectUnchangedLockKeys := fun ks => ks
    filterTemporaryTableKeys := fun ks => ks
    filterLockTableKeys := fun ks => ks
    newLockCtxErr := none
    lockDur := f.lockDur
    lockKeysErr := some (.writeConflict 0)
    recovery := retryReadyEnv maxR f.rebuildDur f.reopenDur }

/-- A DML-loop iteration that drives successfully, needs one key locked and
locks it successfully, ending the loop. -/
def finalIter (nf lf : Nat) : DMLIter Unit :=
  { drive := plainDrive nf
    txnValid := true
    keysNeedToLock := .ok [0]
    collectUnchangedLockKeys := fun ks => ks
    filterTemporaryTableKeys := fun ks => ks
    filterLockTableKeys := fun ks => ks
    newLockCtxErr := none
    lockDur := lf
    lockKeysErr := none
    recovery := retryReadyEnv 0 0 0 }

/-- The iteration script of a run with `fs.length` consecutive lock-conflict
attempts followed by one successful attempt. -/
def conflictScript (fs : List FailSpec) (nf lf maxR : Nat) : List (DMLIter Unit) :=
  fs.map (fun f => conflictIter f maxR) ++ [finalIter nf lf]

/-- The statement-state transformation of one failed attempt of
`conflictScript`: drive and lock durations are recorded, the recovery step
bumps the retry counter, folds the current-attempt slots into the
prior-attempts slots, and records the rebuild/reopen durations of the next
attempt in the fresh current slots. -/
def stepConflict (f : FailSpec) (a : ExecStmt) : ExecStmt :=
  { retryCount := a.retryCount + 1
    phaseBuildDurations := (f.rebuildDur, a.phaseBuildDurations.2 + a.phaseBuildDurations.1)
    phaseOpenDurations := (f.reopenDur, a.phaseOpenDurations.2 + a.phaseOpenDurations.1)
    phaseNextDurations := (0, a.phaseNextDurations.2 + (a.phaseNextDurations.1 + f.nextDur))
    phaseLockDurations := (0, a.phaseLockDurations.2 + (a.phaseLockDurations.1 + f.lockDur)) }

/-- The statement-state transformation of the final, successful attempt of
`conflictScript`: only its drive and lock durations are added to the
current-attempt slots. -/
def finalApply (nf lf : Nat) (a : ExecStmt) : ExecStmt :=
  { a with
    phaseNextDurations := (a.phaseNextDurations.1 + nf, a.phaseNextDurations.2)
    phaseLockDurations := (a.phaseLockDurations.1 + lf, a.phaseLockDurations.2) }

/-- A DML-loop iteration exercising the key-filter order: a write (DML)
executor with clean snapshot flags drives successfully, one key survives
`CollectUnchangedLockKeys`, and the temporary-table filter then removes it,
leaving an empty set for the lock call. -/
def emptyAfterTempFilterIter : DMLIter Unit :=
  { drive := { kind := .writeExecutor, snapshotTS := 0, lowResolutionTSO := false,
               nextDur := 0, nextErr := none }
    txnValid := true
    keysNeedToLock := .ok [5]
    collectUnchangedLockKeys := fun ks => ks
    filterTemporaryTableKeys := fun _ => []
    filterLockTableKeys := fun ks => ks
    newLockCtxErr := none
    lockDur := 0
    lockKeysErr := none
    recovery := retryReadyEnv 0 0 0 }

/-- A select-for-update executor that yields the batches `bs` and then
reports completion with an empty chunk; all drive durations are zero. -/
def cleanSFUExec (bs : List (List Row)) : SFUExec :=
  bs.map (fun b => (0, Except.ok b)) ++ [(0, Except.ok ([] : List Row))]

/-- A select-for-update executor that yields the batches `pre` and then
fails with the error `e`. -/
def failSFUExec (pre : List (List Row)) (e : GoError) : SFUExec :=
  pre.map (fun b => (0, Except.ok b)) ++ [(0, Except.error e)]

/-- A recovery environment for the select-for-update loop: the transaction
manager answers retry-ready and the rebuilt executor is a clean run over the
batches `bs`. -/
def sfuRetryEnv (maxR : Nat) (bs : List (List Row)) : RetryEnv SFUExec :=
  { onStmtErrorForNextAction := fun _ => .ok .retryReady
    maxRetryCount := maxR
    onStmtRetry := none
    getStmtForUpdateTS := none
    buildDur := 0
    buildExecutor := .ok (cleanSFUExec bs)
    openDur := 0
    openExecutor := none }

/-- A recovery environment whose transaction manager answers `noIdea`
(non-retryable) for every error. -/
def noIdeaEnv : RetryEnv Unit :=
  { onStmtErrorForNextAction := fun _ => .ok .noIdea
    maxRetryCount := 0
    onStmtRetry := none
    getStmtForUpdateTS := none
    buildDur := 0
    buildExecutor := .ok ()
    openDur := 0
    openExecutor := none }

/-- A DML-loop iteration whose drive is a write under a snapshot timestamp
and whose recovery verdict for the resulting error is non-retryable. -/
def snapshotWriteIter : DMLIter Unit :=
  { drive := { kind := .writeExecutor, snapshotTS := 7, lowResolutionTSO := false,
               nextDur := 3, nextErr := none }
    txnValid := true
    keysNeedToLock := .ok [0]
    collectUnchangedLockKeys := fun ks => ks
    filterTemporaryTableKeys := fun ks => ks
    filterLockTableKeys := fun ks => ks
    newLockCtxErr := none
    lockDur := 0
    lockKeysErr := none
    recovery := noIdeaEnv }

/-- A DML-loop iteration whose drive fails with a retryable write conflict
while the transaction is no longer valid. -/
def invalidTxnIter : DMLIter Unit :=
  { drive := { kind := .plain, snapshotTS := 0, lowResolutionTSO := false,
               nextDur := 2, nextErr := some (.writeConflict 4) }
    txnValid := false
    keysNeedToLock := .ok [0]
    collectUnchangedLockKeys := fun ks => ks
    filterTemporaryTableKeys := fun ks => ks
    filterLockTableKeys := fun ks => ks
    newLockCtxErr := none
    lockDur := 0
    lockKeysErr := none
    recovery := retryReadyEnv 5 0 0 }

/-- An `Exec` environment for a plain non-pessimistic statement with an
empty output schema whose single drive succeeds. -/
def emptySchemaExecEnv : ExecEnv Unit :=
  { buildDur := 0
    buildErr := none
    isSelectForUpdate := false
    openDur := 0
    openErr := none
    isPessimistic := false
    kind := .plain
    schemaLen := 0
    snapshotTS := 0
    sfuExec := []
    sfuRecoveries := []
    noDelayDrive := plainDrive 1
    dmlScript := []
    txnErr := none
    txnValid := true
    txnStartTS := 42 }

/-- A DML-loop iteration in which a write (DML) executor with clean
snapshot flags drives successfully and the key set is already empty after
`CollectUnchangedLockKeys`. -/
def noKeysIter : DMLIter Unit :=
  { drive := { kind := .writeExecutor, snapshotTS := 0, lowResolutionTSO := false,
               nextDur := 0, nextErr := none }
    txnValid := true
    keysNeedToLock := .ok [5]
    collectUnchangedLockKeys := fun _ => []
    filterTemporaryTableKeys := fun ks => ks
    filterLockTableKeys := fun ks => ks
    newLockCtxErr := none
    lockDur := 0
    lockKeysErr := none
    recovery := retryReadyEnv 0 0 0 }

/-- C1: in `handlePessimisticLockError`, when the transaction manager's
verdict for a retryable lock-conflict error is retry-ready but the retry
counter has already reached the configured maximum retry count, the result
is the dedicated retry-limit-reached error — never the original
lock-conflict error — and the retry counter still equals the configured
maximum; below the budget the counter is incremented instead; and the
counter never exceeds the maximum. -/
theorem handlePessimisticLockError_retry_budget {ε : Type} (env : RetryEnv ε)
    (a : ExecStmt) (i : Nat)
    (hact : env.onStmtErrorForNextAction (.writeConflict i) = .ok .retryReady) :
    (a.retryCount = env.maxRetryCount →
      (handlePessimisticLockError env a (some (.writeConflict i))).2
          = .fail .retryLimitReached ∧
      (handlePessimisticLockError env a (some (.writeConflict i))).2
          ≠ .fail (.writeConflict i) ∧
      (handlePessimisticLockError env a (some (.writeConflict i))).1.retryCount
          = env.maxRetryCount) ∧
    (a.retryCount < env.maxRetryCount →
      (handlePessimisticLockError env a (some (.writeConflict i))).1.retryCount
          = a.retryCount + 1) ∧
    (a.retryCount ≤ env.maxRetryCount →
      (handlePessimisticLockError env a (some (.writeConflict i))).1.retryCount
          ≤ env.maxRetryCount) := by
  simp only [handlePessimisticLockError, handlePessimisticLockErrorCore, hact]
  by_cases hle : env.maxRetryCount ≤ a.retryCount
  · simp [hle, deadlockTranslate, GoError.isDeadlockCause]
  · have hlt : a.retryCount < env.maxRetryCount := Nat.lt_of_not_le hle
    rcases honr : env.onStmtRetry with _ | e₁ <;>
      rcases hts : env.getStmtForUpdateTS with _ | e₂ <;>
      rcases hbe : env.buildExecutor with e₃ | e₄ <;>
      rcases hoe : env.openExecutor with _ | e₅ <;>
      simp [hle, honr, hts, hbe, hoe, deadlockTranslate, GoError.isDeadlockCause,
        ExecStmt.resetPhaseDurations] <;>
      omega

/-- Witness for C1: with a retry budget of `2`, a statement whose counter is
already `2` gets the retry-limit-reached error. -/
theorem handlePessimisticLockError_retry_budget_witness :
    (retryReadyEnv 2 0 0).onStmtErrorForNextAction (.writeConflict 0) = .ok .retryReady ∧
    (handlePessimisticLockError (retryReadyEnv 2 0 0)
        { initStmt 0 0 with retryCount := 2 } (some (.writeConflict 0))).2
      = .fail .retryLimitReached :=
  ⟨rfl, ((handlePessimisticLockError_retry_budget (retryReadyEnv 2 0 0)
      { initStmt 0 0 with retryCount := 2 } 0 rfl).1 rfl).1⟩

/-- C3: for an error whose cause is the lock client's deadlock signal, given
the transaction manager's non-retry verdict, the recovery step never returns
a fresh executor — regardless of the remaining retry budget — and the error
surfaced is the distinguished `ErrDeadlock` kind, not the raw lock-client
deadlock value. -/
theorem handlePessimisticLockError_deadlock {ε : Type} (env : RetryEnv ε)
    (a : ExecStmt) (act : StmtAction)
    (hact : env.onStmtErrorForNextAction .deadlockSignal = .ok act)
    (hne : act ≠ .retryReady) :
    handlePessimisticLockError env a (some .deadlockSignal)
        = (a, .fail .errDeadlock) ∧
    (∀ e : ε, (handlePessimisticLockError env a (some .deadlockSignal)).2
        ≠ .retry e) ∧
    (handlePessimisticLockError env a (some .deadlockSignal)).2
        ≠ .fail .deadlockSignal := by
  simp only [handlePessimisticLockError, handlePessimisticLockErrorCore, hact]
  simp [hne, deadlockTranslate, GoError.isDeadlockCause]

/-- Witness for C3: a manager answering `noIdea` for a deadlock-caused error
yields the distinguished `ErrDeadlock`, with no fresh executor. -/
theorem handlePessimisticLockError_deadlock_witness :
    noIdeaEnv.onStmtErrorForNextAction .deadlockSignal = .ok .noIdea ∧
    StmtAction.noIdea ≠ StmtAction.retryReady ∧
    handlePessimisticLockError noIdeaEnv (initStmt 0 0) (some .deadlockSignal)
      = (initStmt 0 0, .fail .errDeadlock) :=
  ⟨rfl, by decide,
    (handlePessimisticLockError_deadlock noIdeaEnv (initStmt 0 0) .noIdea rfl
      (by decide)).1⟩

/-- C4: a write executor (delete/insert/update/replace/load-data/DDL) driven
while the session is pinned to a historical snapshot timestamp, or to a
low-resolution timestamp, fails immediately with the corresponding read-only
violation error before the executor is driven; a select-for-update entered
under a snapshot timestamp fails the same way before its loop runs; and in
the pessimistic DML loop such a failure (with the manager's non-retry
verdict) surfaces after a single attempt with no key fetch and no lock
call. -/
theorem write_under_snapshot_rejected {ε : Type} :
    (∀ (env : NoDelayEnv) (a : ExecStmt), env.kind = .writeExecutor →
      env.snapshotTS ≠ 0 →
      handleNoDelayExecutor env a = (a, none, some .snapshotWrite, false)) ∧
    (∀ (env : NoDelayEnv) (a : ExecStmt), env.kind = .writeExecutor →
      env.snapshotTS = 0 → env.lowResolutionTSO = true →
      handleNoDelayExecutor env a = (a, none, some .lowResolutionWrite, false)) ∧
    (∀ (ts : Nat) (a : ExecStmt) (e : SFUExec) (envs : List (RetryEnv SFUExec)),
      ts ≠ 0 →
      handlePessimisticSelectForUpdate ts a e envs = some (a, .error .snapshotWrite)) ∧
    (∀ (it : DMLIter ε) (rest : List (DMLIter ε)) (a : ExecStmt) (act : StmtAction),
      it.drive.kind = .writeExecutor → it.drive.snapshotTS ≠ 0 →
      it.txnValid = true →
      it.recovery.onStmtErrorForNextAction .snapshotWrite = .ok act →
      act ≠ .retryReady →
      handlePessimisticDML a (it :: rest) =
        { stmt := a
          result := some (some .snapshotWrite)
          lockCalls := []
          keyFetches := 0
          attempts := 1 }) := by
  refine ⟨?_, ?_, ?_, ?_⟩
  · intro env a h1 h2
    simp [handleNoDelayExecutor, h1, h2]
  · intro env a h1 h2 h3
    simp [handleNoDelayExecutor, h1, h2, h3]
  · intro ts a e envs h
    simp [handlePessimisticSelectForUpdate, h]
  · intro it rest a act h1 h2 h3 hact hne
    simp [handlePessimisticDML, handleNoDelayExecutor, h1, h2, h3,
      handlePessimisticLockError, handlePessimisticLockErrorCore, hact, hne,
      deadlockTranslate, GoError.isDeadlockCause]

/-- Witness for C4: a concrete write drive under snapshot timestamp `7`, a
concrete select-for-update under snapshot timestamp `3`, and the concrete
DML iteration `snapshotWriteIter`. -/
theorem write_under_snapshot_rejected_witness :
    snapshotWriteIter.drive.kind = .writeExecutor ∧
    snapshotWriteIter.drive.snapshotTS ≠ 0 ∧
    handleNoDelayExecutor snapshotWriteIter.drive (initStmt 1 2)
      = (initStmt 1 2, none, some .snapshotWrite, false) ∧
    handlePessimisticSelectForUpdate 3 (initStmt 1 2) [] []
      = some (initStmt 1 2, .error .snapshotWrite) ∧
    handlePessimisticDML (initStmt 1 2) [snapshotWriteIter]
      = { stmt := initStmt 1 2
          result := some (some .snapshotWrite)
          lockCalls := []
          keyFetches := 0
          attempts := 1 } :=
  ⟨rfl, by decide,
    (write_under_snapshot_rejected (ε := Unit)).1 snapshotWriteIter.drive
      (initStmt 1 2) rfl (by decide),
    (write_under_snapshot_rejected (ε := Unit)).2.2.1 3 (initStmt 1 2) [] []
      (by decide),
    (write_under_snapshot_rejected (ε := Unit)).2.2.2 snapshotWriteIter []
      (initStmt 1 2) .noIdea rfl (by decide) rfl rfl (by decide)⟩

/-- C10: in the pessimistic DML loop, when the transaction is no longer
valid after driving the executor, the loop returns the drive's result
immediately: no recovery step runs, even a lock-conflict drive error is
surfaced raw, the retry counter is unchanged, no keys are fetched and no
lock call is made. -/
theorem invalid_txn_returns_drive_error {ε : Type} (it : DMLIter ε)
    (rest : List (DMLIter ε)) (a : ExecStmt) (hvalid : it.txnValid = false) :
    handlePessimisticDML a (it :: rest) =
      { stmt := (handleNoDelayExecutor it.drive a).1
        result := some (handleNoDelayExecutor it.drive a).2.2.1
        lockCalls := []
        keyFetches := 0
        attempts := 1 } ∧
    (handleNoDelayExecutor it.drive a).1.retryCount = a.retryCount := by
  constructor
  · simp [handlePessimisticDML, hvalid]
  · unfold handleNoDelayExecutor
    split
    · rfl
    · split <;> rfl

/-- Witness for C10: `invalidTxnIter` drives into a retryable write conflict
while the transaction is invalid; the conflict is surfaced raw after one
attempt with the counter untouched. -/
theorem invalid_txn_returns_drive_error_witness :
    invalidTxnIter.txnValid = false ∧
    handlePessimisticDML (initStmt 0 0) [invalidTxnIter] =
      { stmt := (handleNoDelayExecutor invalidTxnIter.drive (initStmt 0 0)).1
        result := some (handleNoDelayExecutor invalidTxnIter.drive (initStmt 0 0)).2.2.1
        lockCalls := []
        keyFetches := 0
        attempts := 1 } ∧
    (handlePessimisticDML (initStmt 0 0) [invalidTxnIter]).result
      = some (some (.writeConflict 4)) ∧
    (handlePessimisticDML (initStmt 0 0) [invalidTxnIter]).stmt.retryCount = 0 :=
  ⟨rfl,
    (invalid_txn_returns_drive_error invalidTxnIter [] (initStmt 0 0) rfl).1,
    by decide, by decide⟩

/-- Both Go code paths of `handleNoDelayExecutor` end in `return nil, err`:
the record-set component is always `nil`. -/
theorem handleNoDelayExecutor_no_recordset (env : NoDelayEnv) (a : ExecStmt) :
    (handleNoDelayExecutor env a).2.1 = none := by
  unfold handleNoDelayExecutor
  split
  · rfl
  · split <;> rfl

/-- `handleNoDelay` never produces a record set: both drive paths return
Go's literal `nil` record set, and the unhandled fall-through does too. -/
theorem handleNoDelay_no_recordset {ε : Type} (env : ExecEnv ε) (a : ExecStmt)
    (h : Bool) (s : ExecStmt) (rs : Option RecordSetVal) (err : Option GoError)
    (heq : handleNoDelay env a = some (h, s, rs, err)) : rs = none := by
  unfold handleNoDelay at heq
  repeat'
    first
    | split at heq
    | dsimp only at heq
  all_goals simp_all [handleNoDelayExecutor_no_recordset]

/-- When the built executor is not an explain-analyze and the statement is
no-delay (empty schema, or the calculate-no-delay projection),
`handleNoDelay` reports it as handled. -/
theorem handleNoDelay_handled {ε : Type} (env : ExecEnv ε) (a : ExecStmt)
    (hkind : ∀ n, env.kind ≠ .explainAnalyze n)
    (hnd : env.schemaLen = 0 ∨ env.kind = .projCalculateNoDelay)
    (h : Bool) (s : ExecStmt) (rs : Option RecordSetVal) (err : Option GoError)
    (heq : handleNoDelay env a = some (h, s, rs, err)) : h = true := by
  rcases hk : env.kind with n | _ | _ | _
  · exact absurd hk (hkind n)
  all_goals (
    unfold handleNoDelay at heq
    rw [hk] at heq hnd
    repeat'
      first
      | split at heq
      | dsimp only at heq
    all_goals simp_all)

/-- C2: for a statement whose built executor has an empty output schema (and
for the calculate-no-delay projection variant), `Exec` never returns a
result stream: it drives the statement internally and returns a nil record
set or an error.  The hypotheses `hkind` and `hsfu` encode two structural
facts of the Go source: an `ExplainExec` always has a non-empty schema, and
a select-for-update statement always has a non-empty schema, so neither can
be the executor of an empty-schema statement. -/
theorem exec_empty_schema_no_result_stream {ε : Type} (env : ExecEnv ε)
    (a : ExecStmt)
    (hkind : ∀ n, env.kind ≠ .explainAnalyze n)
    (hsfu : ¬(env.isPessimistic = true ∧ env.isSelectForUpdate = true))
    (hnd : env.schemaLen = 0 ∨ env.kind = .projCalculateNoDelay)
    (s : ExecStmt) (rs : RecordSetVal) (err : Option GoError) :
    Exec env a ≠ some (s, some rs, err) := by
  intro heq
  rcases hbe : env.buildErr with _ | e
  case some =>
    simp only [Exec, hbe] at heq
    simp at heq
  rcases hoe : env.openErr with _ | e
  case some =>
    simp only [Exec, hbe, hoe] at heq
    simp at heq
  simp only [Exec, hbe, hoe, if_neg hsfu] at heq
  rcases hnde : handleNoDelay env
      { retryCount := a.retryCount
        phaseBuildDurations := (a.phaseBuildDurations.1 + env.buildDur, a.phaseBuildDurations.2)
        phaseOpenDurations := (a.phaseOpenDurations.1 + env.openDur, a.phaseOpenDurations.2)
        phaseNextDurations := a.phaseNextDurations
        phaseLockDurations := a.phaseLockDurations }
    with _ | ⟨h1, s1, rs1, err1⟩
  · rw [hnde] at heq
    exact Option.noConfusion heq
  · have hh := handleNoDelay_handled env _ hkind hnd h1 s1 rs1 err1 hnde
    have hr := handleNoDelay_no_recordset env _ h1 s1 rs1 err1 hnde
    rw [hnde] at heq
    simp [hh, hr] at heq

/-- Witness for C2: a plain non-pessimistic statement with an empty schema
never yields a record set from `Exec`. -/
theorem exec_empty_schema_no_result_stream_witness :
    (∀ n, emptySchemaExecEnv.kind ≠ .explainAnalyze n) ∧
    ¬(emptySchemaExecEnv.isPessimistic = true ∧
        emptySchemaExecEnv.isSelectForUpdate = true) ∧
    (emptySchemaExecEnv.schemaLen = 0 ∨
        emptySchemaExecEnv.kind = .projCalculateNoDelay) ∧
    Exec emptySchemaExecEnv (initStmt 0 0)
      ≠ some (initStmt 0 0, some (.recordSet 42), none) :=
  ⟨fun n h => ExecutorKind.noConfusion h, by decide, Or.inl rfl,
    exec_empty_schema_no_result_stream emptySchemaExecEnv (initStmt 0 0)
      (fun n h => ExecutorKind.noConfusion h) (by decide) (Or.inl rfl)
      (initStmt 0 0) (.recordSet 42) none⟩

/-- One failed attempt of `conflictScript`: the drive succeeds, the lock call
records its duration and fails with a write conflict, and the recovery step
(within budget) bumps the counter, folds the phase slots and records the
rebuild/reopen durations, continuing with the rest of the script. -/
theorem handlePessimisticDML_conflictIter (f : FailSpec) (maxR : Nat)
    (rest : List (DMLIter Unit)) (a : ExecStmt) (h : a.retryCount < maxR) :
    handlePessimisticDML a (conflictIter f maxR :: rest) =
      { handlePessimisticDML (stepConflict f a) rest with
        lockCalls := [0] :: (handlePessimisticDML (stepConflict f a) rest).lockCalls
        keyFetches := (handlePessimisticDML (stepConflict f a) rest).keyFetches + 1
        attempts := (handlePessimisticDML (stepConflict f a) rest).attempts + 1 } := by
  have hle : ¬(maxR ≤ a.retryCount) := Nat.not_le.mpr h
  simp only [handlePessimisticDML, conflictIter, retryReadyEnv, plainDrive,
    handleNoDelayExecutor, handlePessimisticLockError, handlePessimisticLockErrorCore,
    deadlockTranslate, GoError.isDeadlockCause, ExecStmt.resetPhaseDurations, stepConflict]
  simp [hle, stepConflict, ExecStmt.resetPhaseDurations]

/-- The final, successful attempt of `conflictScript`: the drive succeeds,
one key is locked successfully, and the loop returns `nil`. -/
theorem handlePessimisticDML_finalIter (nf lf : Nat) (a : ExecStmt) :
    handlePessimisticDML a [finalIter nf lf] =
      { stmt := finalApply nf lf a
        result := some none
        lockCalls := [[0]]
        keyFetches := 1
        attempts := 1 } := by
  simp [handlePessimisticDML, finalIter, plainDrive, handleNoDelayExecutor, finalApply]

/-- Running `conflictScript` from a state with enough retry budget: every
conflict attempt folds into `stepConflict`, the final attempt succeeds, and
each attempt fetched keys and issued one lock call for key `0`. -/
theorem handlePessimisticDML_conflictScript (fs : List FailSpec)
    (nf lf maxR : Nat) (a : ExecStmt) (h : a.retryCount + fs.length ≤ maxR) :
    handlePessimisticDML a (conflictScript fs nf lf maxR) =
      { stmt := finalApply nf lf (fs.foldl (fun s f => stepConflict f s) a)
        result := some none
        lockCalls := List.replicate (fs.length + 1) [0]
        keyFetches := fs.length + 1
        attempts := fs.length + 1 } := by
  induction fs generalizing a with
  | nil =>
    simp only [conflictScript, List.map_nil, List.nil_append, List.foldl_nil,
      List.length_nil, List.replicate, handlePessimisticDML_finalIter]
  | cons f fs ih =>
    have h1 : a.retryCount < maxR := by
      simp only [List.length_cons] at h
      omega
    have h2 : (stepConflict f a).retryCount + fs.length ≤ maxR := by
      simp only [List.length_cons] at h
      simp only [stepConflict]
      omega
    have hsc : conflictScript (f :: fs) nf lf maxR
        = conflictIter f maxR :: conflictScript fs nf lf maxR := by
      simp [conflictScript]
    rw [hsc, handlePessimisticDML_conflictIter f maxR (conflictScript fs nf lf maxR) a h1,
      ih (stepConflict f a) h2]
    simp [List.replicate_succ]

/-- The retry counter after folding `stepConflict` over the failed attempts. -/
theorem foldl_stepConflict_retryCount (fs : List FailSpec) (a : ExecStmt) :
    (fs.foldl (fun s f => stepConflict f s) a).retryCount
      = a.retryCount + fs.length := by
  induction fs generalizing a with
  | nil => simp
  | cons f fs ih =>
    simp only [List.foldl_cons, List.length_cons]
    rw [ih]
    simp only [stepConflict]
    omega

/-- The iterate-phase slots after folding `stepConflict`: the current slot is
zeroed and the prior-attempts slot accumulates every failed drive. -/
theorem foldl_stepConflict_next (fs : List FailSpec) (a : ExecStmt) (s : Nat)
    (h : a.phaseNextDurations = (0, s)) :
    (fs.foldl (fun s f => stepConflict f s) a).phaseNextDurations
      = (0, s + (fs.map FailSpec.nextDur).sum) := by
  induction fs generalizing a s with
  | nil => simpa using h
  | cons f fs ih =>
    simp only [List.foldl_cons, List.map_cons, List.sum_cons]
    rw [ih (stepConflict f a) (s + f.nextDur) (by simp [stepConflict, h])]
    simp [Nat.add_assoc]

/-- The lock-phase slots after folding `stepConflict`. -/
theorem foldl_stepConflict_lock (fs : List FailSpec) (a : ExecStmt) (s : Nat)
    (h : a.phaseLockDurations = (0, s)) :
    (fs.foldl (fun s f => stepConflict f s) a).phaseLockDurations
      = (0, s + (fs.map FailSpec.lockDur).sum) := by
  induction fs generalizing a s with
  | nil => simpa using h
  | cons f fs ih =>
    simp only [List.foldl_cons, List.map_cons, List.sum_cons]
    rw [ih (stepConflict f a) (s + f.lockDur) (by simp [stepConflict, h])]
    simp [Nat.add_assoc]

/-- The build-phase slots after folding `stepConflict`: the current slot
holds the last rebuild (the initial build when no retry happened) and the
prior-attempts slot the sum of all earlier builds. -/
theorem foldl_stepConflict_build (fs : List FailSpec) (a : ExecStmt) (x y : Nat)
    (h : a.phaseBuildDurations = (x, y)) :
    (fs.foldl (fun s f => stepConflict f s) a).phaseBuildDurations
      = ((fs.map FailSpec.rebuildDur).getLastD x,
         y + (x :: fs.map FailSpec.rebuildDur).dropLast.sum) := by
  induction fs generalizing a x y with
  | nil => simpa using h
  | cons f fs ih =>
    simp only [List.foldl_cons, List.map_cons]
    rw [ih (stepConflict f a) f.rebuildDur (y + x) (by simp [stepConflict, h])]
    rw [List.getLastD_cons]
    have hdl : (x :: f.rebuildDur :: fs.map FailSpec.rebuildDur).dropLast
        = x :: (f.rebuildDur :: fs.map FailSpec.rebuildDur).dropLast := rfl
    rw [hdl]
    simp [Nat.add_assoc]

/-- The open-phase slots after folding `stepConflict`. -/
theorem foldl_stepConflict_open (fs : List FailSpec) (a : ExecStmt) (x y : Nat)
    (h : a.phaseOpenDurations = (x, y)) :
    (fs.foldl (fun s f => stepConflict f s) a).phaseOpenDurations
      = ((fs.map FailSpec.reopenDur).getLastD x,
         y + (x :: fs.map FailSpec.reopenDur).dropLast.sum) := by
  induction fs generalizing a x y with
  | nil => simpa using h
  | cons f fs ih =>
    simp only [List.foldl_cons, List.map_cons]
    rw [ih (stepConflict f a) f.reopenDur (y + x) (by simp [stepConflict, h])]
    rw [List.getLastD_cons]
    have hdl : (x :: f.reopenDur :: fs.map FailSpec.reopenDur).dropLast
        = x :: (f.reopenDur :: fs.map FailSpec.reopenDur).dropLast := rfl
    rw [hdl]
    simp [Nat.add_assoc]

/-- C5: for a pessimistic DML run of `fs.length` consecutive retryable
lock-conflict attempts followed by a successful attempt, at completion the
retry counter equals the number of conflicts, each phase's prior-attempts
slot (index 1) equals the sum of the failed attempts' durations for that
phase — for build/open these are all attempt durations except the last —
and each current-attempt slot (index 0) holds only the final attempt's
durations. -/
theorem conflict_retry_phase_accounting (fs : List FailSpec)
    (nf lf b0 o0 maxR : Nat) (h : fs.length ≤ maxR) :
    (handlePessimisticDML (initStmt b0 o0) (conflictScript fs nf lf maxR)).result
        = some none ∧
    (handlePessimisticDML (initStmt b0 o0) (conflictScript fs nf lf maxR)).attempts
        = fs.length + 1 ∧
    (handlePessimisticDML (initStmt b0 o0) (conflictScript fs nf lf maxR)).stmt.retryCount
        = fs.length ∧
    (handlePessimisticDML (initStmt b0 o0) (conflictScript fs nf lf maxR)).stmt.phaseNextDurations
        = (nf, (fs.map FailSpec.nextDur).sum) ∧
    (handlePessimisticDML (initStmt b0 o0) (conflictScript fs nf lf maxR)).stmt.phaseLockDurations
        = (lf, (fs.map FailSpec.lockDur).sum) ∧
    (handlePessimisticDML (initStmt b0 o0) (conflictScript fs nf lf maxR)).stmt.phaseBuildDurations
        = ((fs.map FailSpec.rebuildDur).getLastD b0,
           (b0 :: fs.map FailSpec.rebuildDur).dropLast.sum) ∧
    (handlePessimisticDML (initStmt b0 o0) (conflictScript fs nf lf maxR)).stmt.phaseOpenDurations
        = ((fs.map FailSpec.reopenDur).getLastD o0,
           (o0 :: fs.map FailSpec.reopenDur).dropLast.sum) := by
  have h0 : (initStmt b0 o0).retryCount + fs.length ≤ maxR := by
    simp only [initStmt]
    omega
  rw [handlePessimisticDML_conflictScript fs nf lf maxR (initStmt b0 o0) h0]
  refine ⟨rfl, rfl, ?_, ?_, ?_, ?_, ?_⟩
  · simp [finalApply, foldl_stepConflict_retryCount, initStmt]
  · have hn := foldl_stepConflict_next fs (initStmt b0 o0) 0 (by simp [initStmt])
    simp [finalApply, hn]
  · have hl := foldl_stepConflict_lock fs (initStmt b0 o0) 0 (by simp [initStmt])
    simp [finalApply, hl]
  · have hb := foldl_stepConflict_build fs (initStmt b0 o0) b0 0 (by simp [initStmt])
    simp [finalApply, hb]
  · have ho := foldl_stepConflict_open fs (initStmt b0 o0) o0 0 (by simp [initStmt])
    simp [finalApply, ho]

/-- Witness for C5: two conflicts then success, with distinct durations for
every phase of every attempt. -/
theorem conflict_retry_phase_accounting_witness :
    ([⟨1, 2, 3, 4⟩, ⟨5, 6, 7, 8⟩] : List FailSpec).length ≤ 2 ∧
    (handlePessimisticDML (initStmt 11 12)
        (conflictScript [⟨1, 2, 3, 4⟩, ⟨5, 6, 7, 8⟩] 9 10 2)).result = some none ∧
    (handlePessimisticDML (initStmt 11 12)
        (conflictScript [⟨1, 2, 3, 4⟩, ⟨5, 6, 7, 8⟩] 9 10 2)).stmt.retryCount = 2 ∧
    (handlePessimisticDML (initStmt 11 12)
        (conflictScript [⟨1, 2, 3, 4⟩, ⟨5, 6, 7, 8⟩] 9 10 2)).stmt.phaseNextDurations
      = (9, 6) ∧
    (handlePessimisticDML (initStmt 11 12)
        (conflictScript [⟨1, 2, 3, 4⟩, ⟨5, 6, 7, 8⟩] 9 10 2)).stmt.phaseLockDurations
      = (10, 8) ∧
    (handlePessimisticDML (initStmt 11 12)
        (conflictScript [⟨1, 2, 3, 4⟩, ⟨5, 6, 7, 8⟩] 9 10 2)).stmt.phaseBuildDurations
      = (7, 14) ∧
    (handlePessimisticDML (initStmt 11 12)
        (conflictScript [⟨1, 2, 3, 4⟩, ⟨5, 6, 7, 8⟩] 9 10 2)).stmt.phaseOpenDurations
      = (8, 16) := by
  have hc := conflict_retry_phase_accounting [⟨1, 2, 3, 4⟩, ⟨5, 6, 7, 8⟩] 9 10 11 12 2
    (by decide)
  refine ⟨by decide, hc.1, hc.2.2.1, ?_, ?_, ?_, ?_⟩
  · exact hc.2.2.2.1.trans (by decide)
  · exact hc.2.2.2.2.1.trans (by decide)
  · exact hc.2.2.2.2.2.1.trans (by decide)
  · exact hc.2.2.2.2.2.2.trans (by decide)

/-- C6 counterexample: a successful pessimistic no-delay drive whose key set
is nonempty after `CollectUnchangedLockKeys` (`[5]`) but empty after the
temporary-table filter.  The fully filtered lock-key set is empty and the
loop terminates after exactly one attempt with retry counter `0` — yet a
`LockKeys` call is still issued (with the empty key set), because the
empty-set short-circuit in `handlePessimisticDML` runs before the
temporary-table and lock-table filters, not after them. -/
theorem empty_filtered_lockkeys_counterexample :
    emptyAfterTempFilterIter.filterLockTableKeys
        (emptyAfterTempFilterIter.filterTemporaryTableKeys
          (emptyAfterTempFilterIter.collectUnchangedLockKeys [5])) = [] ∧
    (handlePessimisticDML (initStmt 0 0) [emptyAfterTempFilterIter]).result
        = some none ∧
    (handlePessimisticDML (initStmt 0 0) [emptyAfterTempFilterIter]).attempts = 1 ∧
    (handlePessimisticDML (initStmt 0 0) [emptyAfterTempFilterIter]).stmt.retryCount
        = 0 ∧
    (handlePessimisticDML (initStmt 0 0) [emptyAfterTempFilterIter]).lockCalls
        = [[]] ∧
    (handlePessimisticDML (initStmt 0 0) [emptyAfterTempFilterIter]).lockCalls
        ≠ [] := by
  decide

/-- When the session flags do not force a read-only rejection (in
particular for every write executor of a DML run outside snapshot and
low-resolution read modes, and for every non-write executor),
`handleNoDelayExecutor` drives the executor once, recording the elapsed
time and returning the drive's error. -/
theorem handleNoDelayExecutor_drive (env : NoDelayEnv) (a : ExecStmt)
    (hguard : env.kind = .writeExecutor →
      env.snapshotTS = 0 ∧ env.lowResolutionTSO = false) :
    handleNoDelayExecutor env a =
      ({ a with phaseNextDurations :=
          (a.phaseNextDurations.1 + env.nextDur, a.phaseNextDurations.2) },
       none, env.nextErr, true) := by
  by_cases hk : env.kind = .writeExecutor
  · obtain ⟨h1, h2⟩ := hguard hk
    simp [handleNoDelayExecutor, h1, h2]
  · simp [handleNoDelayExecutor, hk]

/-- C6 amended: in the pessimistic DML loop with an error-free drive — the
write executors of a no-delay DML (outside the read-only snapshot modes)
included — the empty-set short-circuit is decided right after
`CollectUnchangedLockKeys`: if the key set is empty there, the loop ends
after one attempt with the retry counter unchanged and no `LockKeys` call;
if it is nonempty there and the lock context and lock call succeed, the
loop still ends after one attempt with the counter unchanged, but
`LockKeys` is invoked with whatever key set the temporary-table and
lock-table filters left — even the empty one. -/
theorem empty_lockset_short_circuit {ε : Type} (it : DMLIter ε)
    (rest : List (DMLIter ε)) (a : ExecStmt) (keys0 : List Nat)
    (hdrive : it.drive.nextErr = none)
    (hguard : it.drive.kind = .writeExecutor →
      it.drive.snapshotTS = 0 ∧ it.drive.lowResolutionTSO = false)
    (hvalid : it.txnValid = true)
    (hkeys : it.keysNeedToLock = .ok keys0) :
    (it.collectUnchangedLockKeys keys0 = [] →
      handlePessimisticDML a (it :: rest) =
        { stmt := { a with phaseNextDurations :=
              (a.phaseNextDurations.1 + it.drive.nextDur, a.phaseNextDurations.2) }
          result := some none
          lockCalls := []
          keyFetches := 1
          attempts := 1 }) ∧
    (it.collectUnchangedLockKeys keys0 ≠ [] → it.newLockCtxErr = none →
      it.lockKeysErr = none →
      handlePessimisticDML a (it :: rest) =
        { stmt := { a with
              phaseNextDurations :=
                (a.phaseNextDurations.1 + it.drive.nextDur, a.phaseNextDurations.2)
              phaseLockDurations :=
                (a.phaseLockDurations.1 + it.lockDur, a.phaseLockDurations.2) }
          result := some none
          lockCalls := [it.filterLockTableKeys (it.filterTemporaryTableKeys
            (it.collectUnchangedLockKeys keys0))]
          keyFetches := 1
          attempts := 1 }) := by
  have hd := handleNoDelayExecutor_drive it.drive a hguard
  constructor
  · intro hc
    simp [handlePessimisticDML, hd, hvalid, hkeys, hdrive, hc]
  · intro hc hctx hlk
    simp [handlePessimisticDML, hd, hvalid, hkeys, hdrive, hc, hctx, hlk]

/-- Witness for the C6 amended theorem, on write (DML) executors:
`noKeysIter` exercises the no-lock-call branch and
`emptyAfterTempFilterIter` the branch that calls `LockKeys` with an empty
filtered set. -/
theorem empty_lockset_short_circuit_witness :
    noKeysIter.drive.kind = .writeExecutor ∧
    noKeysIter.drive.snapshotTS = 0 ∧
    noKeysIter.drive.lowResolutionTSO = false ∧
    emptyAfterTempFilterIter.drive.kind = .writeExecutor ∧
    noKeysIter.drive.nextErr = none ∧
    noKeysIter.collectUnchangedLockKeys [5] = [] ∧
    handlePessimisticDML (initStmt 0 0) [noKeysIter] =
      { stmt := { initStmt 0 0 with phaseNextDurations :=
            ((initStmt 0 0).phaseNextDurations.1 + noKeysIter.drive.nextDur,
             (initStmt 0 0).phaseNextDurations.2) }
        result := some none
        lockCalls := []
        keyFetches := 1
        attempts := 1 } ∧
    handlePessimisticDML (initStmt 0 0) [emptyAfterTempFilterIter] =
      { stmt := { initStmt 0 0 with
            phaseNextDurations :=
              ((initStmt 0 0).phaseNextDurations.1 + emptyAfterTempFilterIter.drive.nextDur,
               (initStmt 0 0).phaseNextDurations.2)
            phaseLockDurations :=
              ((initStmt 0 0).phaseLockDurations.1 + emptyAfterTempFilterIter.lockDur,
               (initStmt 0 0).phaseLockDurations.2) }
        result := some none
        lockCalls := [emptyAfterTempFilterIter.filterLockTableKeys
          (emptyAfterTempFilterIter.filterTemporaryTableKeys
            (emptyAfterTempFilterIter.collectUnchangedLockKeys [5]))]
        keyFetches := 1
        attempts := 1 } :=
  ⟨rfl, rfl, rfl, rfl, rfl, rfl,
    (empty_lockset_short_circuit noKeysIter [] (initStmt 0 0) [5] rfl
      (by decide) rfl rfl).1 rfl,
    (empty_lockset_short_circuit emptyAfterTempFilterIter [] (initStmt 0 0) [5] rfl
      (by decide) rfl rfl).2 (by decide) rfl rfl⟩

/-- C7 counterexample: at the recovery boundary of `Exec` a non-string panic
is not converted into a regular error — it propagates as a panic — while the
panic carrying the out-of-memory signal is the one converted into a regular
error instead of propagating.  Both directions contradict the claim, which
states that every panic is converted except the out-of-memory one. -/
theorem exec_panic_policy_counterexample :
    execRecover (DriveOutcome.panicked (.nonString 0) : DriveOutcome Unit)
        = DriveOutcome.panicked (.nonString 0) ∧
    execRecover (DriveOutcome.panicked (.ofString ⟨true, 0⟩) : DriveOutcome Unit)
        = DriveOutcome.err (.recovered (.ofString ⟨true, 0⟩)) := by
  decide

/-- C7 amended: at `Exec`'s outermost recovery boundary, only a string panic
containing the `memory.PanicMemoryExceed` signal is converted into a regular
error value; every other panic is re-raised and propagates.  At
`recordSet.Next`'s recovery boundary, every panic — the out-of-memory one
included — is converted into a regular error. -/
theorem exec_panic_policy (v : PanicValue) :
    execRecover (DriveOutcome.panicked v : DriveOutcome Unit)
      = (if v.isMemExceedString = true then .err (.recovered v) else .panicked v) ∧
    recordSetNextRecover (DriveOutcome.panicked v : DriveOutcome Unit)
      = .err (.recovered v) := by
  constructor
  · cases v with
    | ofString s => simp [execRecover, PanicValue.isMemExceedString]
    | nonString i => simp [execRecover, PanicValue.isMemExceedString]
  · simp [recordSetNextRecover]

/-- C8 counterexample: closing a record set twice runs the owning
statement's finalize-and-record path (`FinishExecuteStmt`, audit, tracker
detachment) twice, not once — the second `Close` is not a no-op with respect
to that path. -/
theorem double_close_counterexample :
    (recordSetClose none (recordSetClose none ⟨0, 0, 0⟩).1).1.finishExecuteStmtCount
        = 2 ∧
    (recordSetClose none (recordSetClose none ⟨0, 0, 0⟩).1).1.logAuditCount = 2 ∧
    (recordSetClose none (recordSetClose none ⟨0, 0, 0⟩).1).1.detachCount = 2 ∧
    ¬((recordSetClose none (recordSetClose none ⟨0, 0, 0⟩).1).1.finishExecuteStmtCount
        = 1) := by
  decide

/-- C8 amended: each `Close` call invokes the owning statement's
finalize-and-record path exactly once and returns the executor-close error,
so calling `Close` twice produces the finalize side effects exactly twice —
`Close` is not idempotent with respect to that path. -/
theorem double_close_finalizes_twice (s : FinalizeState) (e1 e2 : Option GoError) :
    (recordSetClose e1 s).1.finishExecuteStmtCount = s.finishExecuteStmtCount + 1 ∧
    (recordSetClose e1 s).1.logAuditCount = s.logAuditCount + 1 ∧
    (recordSetClose e1 s).1.detachCount = s.detachCount + 1 ∧
    (recordSetClose e1 s).2 = e1 ∧
    (recordSetClose e2 (recordSetClose e1 s).1).1 =
      { finishExecuteStmtCount := s.finishExecuteStmtCount + 2
        logAuditCount := s.logAuditCount + 2
        detachCount := s.detachCount + 2 } := by
  refine ⟨rfl, rfl, rfl, rfl, rfl⟩

/-- A clean (conflict-free) buffering run: the executor yields its batches,
signals completion with an empty chunk, and the accumulated rows are the
concatenation of the batches, in order. -/
theorem runPessimisticSelectForUpdate_clean (bs : List (List Row)) :
    ∀ (a : ExecStmt) (acc : List Row), (∀ b ∈ bs, b ≠ []) →
      runPessimisticSelectForUpdate a acc (cleanSFUExec bs)
        = some (a, .ok (acc ++ bs.flatten)) := by
  induction bs with
  | nil =>
    intro a acc h
    simp [cleanSFUExec, runPessimisticSelectForUpdate]
  | cons b bs ih =>
    intro a acc h
    have hb : b ≠ [] := h b (by simp)
    have hrest : ∀ x ∈ bs, x ≠ [] := fun x hx => h x (by simp [hx])
    simp only [cleanSFUExec, List.map_cons, List.cons_append,
      runPessimisticSelectForUpdate]
    rw [if_neg hb]
    have hrec := ih a (acc ++ b) hrest
    simp only [cleanSFUExec] at hrec
    rw [List.append_assoc] at hrec
    exact hrec

/-- A buffering run that hits an error after some batches surfaces the
error for the caller's recovery step. -/
theorem runPessimisticSelectForUpdate_fail (pre : List (List Row)) (e : GoError) :
    ∀ (a : ExecStmt) (acc : List Row), (∀ b ∈ pre, b ≠ []) →
      runPessimisticSelectForUpdate a acc (failSFUExec pre e)
        = some (a, .error e) := by
  induction pre with
  | nil =>
    intro a acc h
    simp [failSFUExec, runPessimisticSelectForUpdate]
  | cons b pre ih =>
    intro a acc h
    have hb : b ≠ [] := h b (by simp)
    have hrest : ∀ x ∈ pre, x ≠ [] := fun x hx => h x (by simp [hx])
    simp only [failSFUExec, List.map_cons, List.cons_append,
      runPessimisticSelectForUpdate]
    rw [if_neg hb]
    have hrec := ih a (acc ++ b) hrest
    simp only [failSFUExec] at hrec
    exact hrec

/-- Draining a `chunkRowRecordSet` with any positive chunk capacity delivers
exactly the rows from the cursor position onwards, in order. -/
theorem drainChunkRows_drop (rows : List Row) (cap : Nat) (hcap : 0 < cap) :
    ∀ (fuel idx : Nat), rows.length - idx ≤ fuel →
      drainChunkRows ⟨rows, idx⟩ cap fuel = rows.drop idx := by
  intro fuel
  induction fuel with
  | zero =>
    intro idx h
    have hle : rows.length ≤ idx := by omega
    simp [drainChunkRows, List.drop_eq_nil_of_le hle]
  | succ fuel ih =>
    intro idx h
    by_cases hidx : idx < rows.length
    · have hcond : 0 < cap ∧ idx < rows.length := ⟨hcap, hidx⟩
      have hn1 : 1 ≤ min (rows.length - idx) cap := by
        have : 1 ≤ rows.length - idx := by omega
        exact Nat.le_min.mpr ⟨this, hcap⟩
      have hout : (rows.drop idx).take (min (rows.length - idx) cap) ≠ [] := by
        intro hemp
        have hlen0 := congrArg List.length hemp
        rw [List.length_take, List.length_drop] at hlen0
        simp only [List.length_nil] at hlen0
        omega
      simp only [drainChunkRows, chunkRowRecordSetNext, if_pos hcond]
      simp only [if_neg hout]
      rw [ih (idx + min (rows.length - idx) cap) (by omega)]
      have hdd : rows.drop (idx + min (rows.length - idx) cap)
          = (rows.drop idx).drop (min (rows.length - idx) cap) := by
        simp [List.drop_drop, Nat.add_comm]
      rw [hdd]
      exact List.take_append_drop _ (rows.drop idx)
    · have hcond : ¬(0 < cap ∧ idx < rows.length) := by
        intro hc
        exact hidx hc.2
      have hle : rows.length ≤ idx := by omega
      simp [drainChunkRows, chunkRowRecordSetNext, hcond,
        List.drop_eq_nil_of_le hle]

/-- The select-for-update retry loop on a conflict-free executor returns the
buffered batches unchanged. -/
theorem handlePessimisticSelectForUpdateLoop_clean (bs : List (List Row))
    (a : ExecStmt) (envs : List (RetryEnv SFUExec)) (hbs : ∀ b ∈ bs, b ≠ []) :
    handlePessimisticSelectForUpdateLoop a (cleanSFUExec bs) envs
      = some (a, .ok (some bs.flatten)) := by
  unfold handlePessimisticSelectForUpdateLoop
  rw [runPessimisticSelectForUpdate_clean bs a [] hbs]
  rfl

/-- The recovery step with `sfuRetryEnv`, within budget: the counter is
bumped, the phase slots are folded, and the rebuilt clean executor is
returned for the retry. -/
theorem handlePessimisticLockError_sfuRetryEnv (maxR : Nat) (bs : List (List Row))
    (a : ExecStmt) (i : Nat) (hmax : a.retryCount < maxR) :
    handlePessimisticLockError (sfuRetryEnv maxR bs) a (some (.writeConflict i))
      = (ExecStmt.resetPhaseDurations { a with retryCount := a.retryCount + 1 },
         .retry (cleanSFUExec bs)) := by
  simp [handlePessimisticLockError, handlePessimisticLockErrorCore, sfuRetryEnv,
    deadlockTranslate, GoError.isDeadlockCause, Nat.not_le.mpr hmax,
    ExecStmt.resetPhaseDurations]

/-- The select-for-update retry loop on an executor that conflicts once,
with a retry-ready verdict and remaining budget: the loop rebuilds a clean
executor and returns exactly that clean run's rows. -/
theorem handlePessimisticSelectForUpdateLoop_conflict (pre bs : List (List Row))
    (i maxR : Nat) (a : ExecStmt)
    (hpre : ∀ b ∈ pre, b ≠ []) (hbs : ∀ b ∈ bs, b ≠ [])
    (hmax : a.retryCount < maxR) :
    ∃ a1, handlePessimisticSelectForUpdateLoop a (failSFUExec pre (.writeConflict i))
        [sfuRetryEnv maxR bs] = some (a1, .ok (some bs.flatten)) := by
  refine ⟨ExecStmt.resetPhaseDurations { a with retryCount := a.retryCount + 1 }, ?_⟩
  unfold handlePessimisticSelectForUpdateLoop
  rw [runPessimisticSelectForUpdate_fail pre (.writeConflict i) a [] hpre]
  simp only [handlePessimisticLockError_sfuRetryEnv maxR bs a i hmax]
  rw [handlePessimisticSelectForUpdateLoop_clean bs _ [] hbs]

/-- C9: for a pessimistic select-for-update that hits exactly one lock
conflict and then succeeds, the buffered rows handed to the client equal the
rows of a conflict-free execution of the rebuilt executor, and the
`chunkRowRecordSet` replays exactly those rows in order before signalling
exhaustion with an empty batch: buffering plus retry is transparent to the
output. -/
theorem sfu_retry_transparent (pre bs : List (List Row)) (i maxR cap fuel : Nat)
    (a : ExecStmt)
    (hpre : ∀ b ∈ pre, b ≠ []) (hbs : ∀ b ∈ bs, b ≠ [])
    (hmax : a.retryCount < maxR) (hcap : 0 < cap)
    (hfuel : bs.flatten.length ≤ fuel) :
    (∃ a1, handlePessimisticSelectForUpdate 0 a (failSFUExec pre (.writeConflict i))
        [sfuRetryEnv maxR bs] = some (a1, .ok (some bs.flatten))) ∧
    (∃ a2, handlePessimisticSelectForUpdate 0 a (cleanSFUExec bs) []
        = some (a2, .ok (some bs.flatten))) ∧
    drainChunkRows ⟨bs.flatten, 0⟩ cap fuel = bs.flatten ∧
    chunkRowRecordSetNext ⟨bs.flatten, bs.flatten.length⟩ cap
      = (⟨bs.flatten, bs.flatten.length⟩, []) := by
  refine ⟨?_, ?_, ?_, ?_⟩
  · obtain ⟨a1, h1⟩ :=
      handlePessimisticSelectForUpdateLoop_conflict pre bs i maxR a hpre hbs hmax
    exact ⟨a1, by simpa [handlePessimisticSelectForUpdate] using h1⟩
  · exact ⟨a, by
      simpa [handlePessimisticSelectForUpdate] using
        handlePessimisticSelectForUpdateLoop_clean bs a [] hbs⟩
  · have := drainChunkRows_drop bs.flatten cap hcap fuel 0 (by omega)
    simpa using this
  · simp [chunkRowRecordSetNext]

/-- Witness for C9: the first attempt yields batch `[1]` then conflicts; the
rebuilt executor yields batches `[2]` and `[3]`; with chunk capacity `2` the
client receives exactly `[2, 3]` and then an empty batch. -/
theorem sfu_retry_transparent_witness :
    (∀ b ∈ ([[1]] : List (List Row)), b ≠ []) ∧
    (∀ b ∈ ([[2], [3]] : List (List Row)), b ≠ []) ∧
    (initStmt 0 0).retryCount < 1 ∧
    (0 : Nat) < 2 ∧
    ([[2], [3]] : List (List Row)).flatten.length ≤ 2 ∧
    ((∃ a1, handlePessimisticSelectForUpdate 0 (initStmt 0 0)
        (failSFUExec [[1]] (.writeConflict 0)) [sfuRetryEnv 1 [[2], [3]]]
        = some (a1, .ok (some ([[2], [3]] : List (List Row)).flatten))) ∧
      (∃ a2, handlePessimisticSelectForUpdate 0 (initStmt 0 0)
        (cleanSFUExec [[2], [3]]) []
        = some (a2, .ok (some ([[2], [3]] : List (List Row)).flatten))) ∧
      drainChunkRows ⟨([[2], [3]] : List (List Row)).flatten, 0⟩ 2 2
        = ([[2], [3]] : List (List Row)).flatten ∧
      chunkRowRecordSetNext
          ⟨([[2], [3]] : List (List Row)).flatten,
           ([[2], [3]] : List (List Row)).flatten.length⟩ 2
        = (⟨([[2], [3]] : List (List Row)).flatten,
            ([[2], [3]] : List (List Row)).flatten.length⟩, [])) :=
  ⟨by decide, by decide, by decide, by decide, by decide,
    sfu_retry_transparent [[1]] [[2], [3]] 0 1 2 2 (initStmt 0 0)
      (by decide) (by decide) (by decide) (by decide) (by decide)⟩
